import Mathlib

/-!
Verification development for the outfit/product backend in src/app.py.

The file gives a shallow embedding of the embedding-index builder
(generate_and_store_embeddings), the nearest-item resolver (rag_search),
and the combined outfit lookup (get_data_from_db_combined / api_data),
together with theorems settling the stated properties of each.

Modelling conventions:
- SQL tables are association lists; the item_embeddings table is a list of
  (item_id, vector) rows whose PRIMARY KEY constraint is expressed through
  keyed upserts and the nodupKeys invariant.
- Embedding vectors are lists of integers; the external embedding service
  is a parameter of each operation (a function from a batch of texts to
  either one vector per text or a batch-level failure), matching the
  boundary described for co.embed.
- Python truthiness of optional strings (None and the empty string are
  falsy) is made explicit by pyTruthy.
- The while-True batch loop runs on fuel; fuel independence beyond the
  supplied amount is proved below (buildLoop_fuel_adequate), so the fuelled
  loop computes the same table as the unbounded source loop.
-/

set_option maxRecDepth 100000

namespace DbAccess

/-- Catalog item: a row of the items table, carrying the id and the
optional free-text description (NULL is modelled by none). -/
structure Item where
  id : Nat
  description : Option String
  deriving DecidableEq, Repr

/-- Embedding vectors as produced by the embedding service. -/
abbrev Vec := List Int

/-- The item_embeddings table: rows of (item_id, embedding). -/
abbrev Store := List (Nat × Vec)

/-- Python truthiness of an optional string: None and the empty string
are falsy, every other string is truthy. -/
def pyTruthy : Option String → Bool
  | none => false
  | some s => s != ""

/-- Membership of an item id among the keys of the table; this is the
subquery id NOT IN (SELECT item_id FROM item_embeddings), negated. -/
def keyMem (k : Nat) (s : Store) : Bool :=
  s.any (fun p => p.1 == k)

/-- INSERT INTO item_embeddings (item_id, embedding) VALUES (..) ON CONFLICT
(item_id) DO UPDATE SET embedding = EXCLUDED.embedding: replace the row with
the given key if present (the key is unique by the PRIMARY KEY constraint),
otherwise append a fresh row. -/
def upsert : Store → Nat → Vec → Store
  | [], k, v => [(k, v)]
  | p :: ps, k, v => if p.1 == k then (k, v) :: ps else p :: upsert ps k v

/-- Insertion into a list sorted by ascending id. -/
def insertById (it : Item) : List Item → List Item
  | [] => [it]
  | x :: xs => if it.id ≤ x.id then it :: x :: xs else x :: insertById it xs

/-- ORDER BY id over the items table. -/
def sortById : List Item → List Item
  | [] => []
  | x :: xs => insertById x (sortById xs)

/-- One batch query of the builder loop:
SELECT id, description FROM items
WHERE id NOT IN (SELECT item_id FROM item_embeddings)
ORDER BY id LIMIT 100 OFFSET offset. -/
def batchQuery (catalog : List Item) (s : Store) (offset : Nat) : List Item :=
  ((sortById (catalog.filter (fun it => !keyMem it.id s))).drop offset).take 100

/-- The texts sent to the embedding service for one batch: the list
comprehension over the batch keeping only truthy descriptions. -/
def batchDescs (batch : List Item) : List String :=
  batch.filterMap (fun it => if pyTruthy it.description then it.description else none)

/-- Result of one builder run: the final item_embeddings table together
with the list of text batches that were sent to the embedding service. -/
structure BuildResult where
  store : Store
  requests : List (List String)
  deriving DecidableEq, Repr

/-- The builder loop of generate_and_store_embeddings. Each iteration reads
the batch at the current offset (over items not yet present in the table);
an empty batch breaks the loop; a batch with no truthy description advances
the offset without an embedding call; otherwise the truthy descriptions are
sent to the service in one call. On failure the transaction is rolled back
(the table is left as it was) and the loop continues at the next offset. On
success the reply vectors are zipped against the whole unfiltered batch (as
in the source) and written through keyed upserts, then committed. The
offset always advances by the batch size 100. -/
def buildLoop (embedB : List String → Except Unit (List Vec)) (catalog : List Item) :
    Nat → Nat → Store → List (List String) → BuildResult
  | 0, _, s, reqs => ⟨s, reqs⟩
  | fuel + 1, offset, s, reqs =>
    let batch := batchQuery catalog s offset
    if batch.isEmpty then ⟨s, reqs⟩
    else
      let descs := batchDescs batch
      if descs.isEmpty then buildLoop embedB catalog fuel (offset + 100) s reqs
      else
        match embedB descs with
        | .error _ => buildLoop embedB catalog fuel (offset + 100) s (reqs ++ [descs])
        | .ok embs =>
          buildLoop embedB catalog fuel (offset + 100)
            ((batch.zip embs).foldl (fun acc p => upsert acc p.1.id p.2) s)
            (reqs ++ [descs])

/-- generate_and_store_embeddings: enables the extension, drops the existing
item_embeddings table and recreates it empty (so the prior table contents
are discarded at the start of every run), returns early when the items
table is empty, and otherwise runs the batch loop from offset 0 over the
fresh empty table. -/
def generate_and_store_embeddings (embedB : List String → Except Unit (List Vec))
    (catalog : List Item) (_priorTable : Store) : BuildResult :=
  if catalog.length == 0 then ⟨[], []⟩
  else buildLoop embedB catalog (catalog.length + 1) 0 [] []

/-- A concrete deterministic embedding service used for evaluations: the
vector of a text is the list of its character codes, and no batch fails. -/
def embedByCodes (ts : List String) : Except Unit (List Vec) :=
  Except.ok (ts.map (fun s => s.toList.map (fun c => (c.toNat : Int))))

/-- The three-item catalog exhibiting the zip misalignment of the builder:
item 2 has a NULL description sitting between two described items. -/
def catalogMix : List Item := [⟨1, some "a"⟩, ⟨2, none⟩, ⟨3, some "c"⟩]

example : (generate_and_store_embeddings embedByCodes catalogMix []).store =
    [(1, [97]), (2, [99])] := by decide

example : (generate_and_store_embeddings embedByCodes catalogMix []).requests =
    [["a", "c"]] := by decide

/-- Responses of the /rag_search route: the 400 body for a missing or empty
item description, the 404 body when no row matches, and the 200 body
carrying the single resolved item id. -/
inductive RagResponse where
  | badRequest
  | notFound
  | found (item_id : Nat)
  deriving DecidableEq, Repr

/-- One handled /rag_search request: the response, the texts sent to the
embedding service, and whether the database was queried. -/
structure RagRun where
  response : RagResponse
  embedCalls : List String
  dbQueried : Bool
  deriving DecidableEq, Repr

/-- SELECT item_id, embedding <=> query AS distance FROM item_embeddings
ORDER BY distance ASC LIMIT 1, then fetchone: the first row attaining the
minimum distance to the query vector, none on an empty table. The distance
operator of the storage layer is a parameter. -/
def minByDist (dist : Vec → Vec → Int) (q : Vec) : Store → Option (Nat × Vec)
  | [] => none
  | p :: ps =>
    match minByDist dist q ps with
    | none => some p
    | some m => if dist q p.2 ≤ dist q m.2 then some p else some m

/-- The /rag_search handler: reads item_description from the request body,
answers 400 on a falsy value before any external call, otherwise embeds the
single text, runs the LIMIT 1 distance query, and answers 404 on an empty
fetch or 200 with the item id of the closest row. -/
def rag_search (embedQ : String → Vec) (dist : Vec → Vec → Int) (s : Store)
    (item_description : Option String) : RagRun :=
  if !pyTruthy item_description then ⟨.badRequest, [], false⟩
  else
    let d := item_description.getD ""
    match minByDist dist (embedQ d) s with
    | none => ⟨.notFound, [d], true⟩
    | some p => ⟨.found p.1, [d], true⟩

/-- Observable exception of the embedded data-access fragments: the
UnboundLocalError raised when the finally block reads a local name that was
never assigned because acquisition failed earlier. -/
inductive PyError where
  | unboundLocal
  deriving DecidableEq, Repr

/-- Outcome of a Python call: a returned value or a propagated exception. -/
inductive PyOutcome (α : Type) where
  | ok (v : α)
  | raised (e : PyError)
  deriving DecidableEq, Repr

/-- A row returned by the combined outfit query: outfit id, image data and
description (the latter two nullable). -/
abbrev OutfitRow := Nat × Option String × Option String

/-- Environment of one data-access call: whether psycopg2.connect succeeds
and whether conn.cursor succeeds. -/
structure DBEnv where
  connectOk : Bool
  cursorOk : Bool
  deriving DecidableEq, Repr

/-- Parameters bound to the placeholders of the combined query. -/
structure QueryParams where
  phone : Option String
  insta : Option String
  limit : Nat
  offset : Nat
  deriving DecidableEq, Repr

/-- The SQL text of get_data_from_db_combined, verbatim from the source:
it juxtaposes two SELECT clauses before a single FROM. -/
def combinedQuery : String :=
  "\n            SELECT DISTINCT o.id, o.image_data, o.description \n            SELECT DISTINCT o.id, o.image_data, o.description, pn.phone_number, pn.instagram_username \n            FROM outfits o \n            LEFT JOIN phone_numbers pn ON o.phone_id = pn.id \n            WHERE (pn.phone_number = %s OR pn.instagram_username = %s)\n            ORDER BY o.id DESC\n            LIMIT %s OFFSET %s\n        "

/-- Does needle occur at the head of the character list. -/
def startsWithChars : List Char → List Char → Bool
  | [], _ => true
  | _ :: _, [] => false
  | a :: as, b :: bs => a == b && startsWithChars as bs

/-- Number of positions at which the needle occurs in the haystack. -/
def countOcc (needle : List Char) : List Char → Nat
  | [] => 0
  | c :: cs => (if startsWithChars needle (c :: cs) then 1 else 0) + countOcc needle cs

/-- Number of occurrences of the keyword SELECT in a statement. -/
def selectCount (q : String) : Nat :=
  countOcc "SELECT".toList q.toList

/-- Trace of one call to get_data_from_db_combined: the returned value or
propagated exception, and whether the connection was opened, the connection
closed, and the cursor closed. -/
structure GddcRun where
  outcome : PyOutcome (Option (List OutfitRow))
  connOpened : Bool
  connClosed : Bool
  cursorClosed : Bool
  deriving DecidableEq, Repr

/-- get_data_from_db_combined, with the try/except/finally control flow of
the source made explicit. If psycopg2.connect raises, the except clause
returns None, but the finally clause evaluates the truth of the local name
cursor, which was never assigned, so UnboundLocalError is raised and
replaces the return; no connection was opened. If conn.cursor raises after
a successful connect, the finally clause again raises UnboundLocalError on
the unbound cursor before reaching conn.close, so the opened connection is
never closed. If both acquisitions succeed, cursor.execute runs the
combined query with the bound parameters: on an execute error the except
clause returns None and the finally clause closes cursor and connection;
on success the fetched rows are returned and both are closed. -/
def get_data_from_db_combined (env : DBEnv)
    (exec : String → QueryParams → Except Unit (List OutfitRow))
    (phone_number instagram_username : Option String) (page per_page : Nat) : GddcRun :=
  if env.connectOk = false then ⟨.raised .unboundLocal, false, false, false⟩
  else if env.cursorOk = false then ⟨.raised .unboundLocal, true, false, false⟩
  else
    let offset := (page - 1) * per_page
    match exec combinedQuery ⟨phone_number, instagram_username, per_page, offset⟩ with
    | .error _ => ⟨.ok none, true, true, true⟩
    | .ok rows => ⟨.ok (some rows), true, true, true⟩

/-- lstrip of the at sign, as applied to Instagram usernames. -/
def lstripAt (s : String) : String :=
  String.mk (s.toList.dropWhile (fun c => c == '@'))

/-- format_phone_number: strip surrounding whitespace, drop dashes,
parentheses and spaces, and prepend the +1 prefix when absent. -/
def format_phone_number (s : String) : String :=
  let cleaned := String.mk ((s.trim).toList.filter
    (fun c => !(c == '-' || c == '(' || c == ')' || c == ' ')))
  if startsWithChars ['+', '1'] cleaned.toList then cleaned else "+1" ++ cleaned

/-- Responses of the /api/data route: the 400 body for missing identifiers,
the 500 database-error body when the helper returned None, the 500 body of
the generic exception handler, the 404 body for an empty row set, and the
200 body with the outfit rows. -/
inductive ApiResp where
  | badRequest400
  | dbError500
  | unexpected500
  | notFound404
  | ok200 (outfits : List OutfitRow) (hasMore : Bool)
  deriving DecidableEq, Repr

/-- The /api/data handler: answers 400 when both identifiers are falsy,
normalises the truthy ones, calls get_data_from_db_combined, and maps its
outcome through the handle_errors decorator: a propagated exception becomes
the generic 500, a None return becomes the database-error 500, an empty row
list becomes 404, and otherwise the rows are returned with the has-more
flag. -/
def api_data (env : DBEnv)
    (exec : String → QueryParams → Except Unit (List OutfitRow))
    (phone_number instagram_username : Option String) (page per_page : Nat) : ApiResp :=
  if !(pyTruthy phone_number || pyTruthy instagram_username) then .badRequest400
  else
    let phone := if pyTruthy phone_number
      then some (format_phone_number (phone_number.getD "")) else phone_number
    let insta := if pyTruthy instagram_username
      then some (lstripAt (instagram_username.getD "")) else instagram_username
    match (get_data_from_db_combined env exec phone insta page per_page).outcome with
    | .raised _ => .unexpected500
    | .ok none => .dbError500
    | .ok (some rows) =>
      if rows.isEmpty then .notFound404 else .ok200 rows (rows.length == per_page)

/-- PRIMARY KEY invariant of the item_embeddings table: no two rows share
an item id. -/
def nodupKeys : Store → Bool
  | [] => true
  | p :: ps => !(ps.any (fun q => q.1 == p.1)) && nodupKeys ps

example : selectCount combinedQuery = 2 := by decide

/-! Supporting lemmas. -/

/-- Inserting into the sorted list grows the length by one. -/
lemma length_insertById (it : Item) (l : List Item) :
    (insertById it l).length = l.length + 1 := by
  induction l with
  | nil => rfl
  | cons x xs ih => by_cases h : it.id ≤ x.id <;> simp [insertById, h, ih]

/-- ORDER BY preserves the number of rows. -/
lemma length_sortById (l : List Item) : (sortById l).length = l.length := by
  induction l with
  | nil => rfl
  | cons x xs ih => simp [sortById, length_insertById, ih]

/-- Once the offset passes the catalog size, the batch query is empty. -/
lemma batchQuery_eq_nil (catalog : List Item) (s : Store) (offset : Nat)
    (h : catalog.length ≤ offset) : batchQuery catalog s offset = [] := by
  unfold batchQuery
  rw [List.drop_eq_nil_of_le, List.take_nil]
  rw [length_sortById]
  exact le_trans (List.length_filter_le _ _) h

/-- Once the offset passes the catalog size, the loop stops immediately,
whatever the fuel. -/
lemma buildLoop_stop (embedB : List String → Except Unit (List Vec))
    (catalog : List Item) (fuel offset : Nat) (s : Store) (reqs : List (List String))
    (h : catalog.length ≤ offset) :
    buildLoop embedB catalog fuel offset s reqs = ⟨s, reqs⟩ := by
  cases fuel with
  | zero => rfl
  | succ n => simp [buildLoop, batchQuery_eq_nil catalog s offset h]

/-- Fuel adequacy: once the fuel covers the catalog size at the current
offset, additional fuel does not change the result, so the fuelled loop
agrees with the unbounded source loop. -/
lemma buildLoop_fuel_adequate (embedB : List String → Except Unit (List Vec))
    (catalog : List Item) (fuel : Nat) :
    ∀ (m offset : Nat) (s : Store) (reqs : List (List String)),
      catalog.length ≤ 100 * fuel + offset →
      buildLoop embedB catalog (fuel + m) offset s reqs =
        buildLoop embedB catalog fuel offset s reqs := by
  induction fuel with
  | zero =>
    intro m offset s reqs h
    rw [buildLoop_stop embedB catalog (0 + m) offset s reqs (by omega),
      buildLoop_stop embedB catalog 0 offset s reqs (by omega)]
  | succ n ih =>
    intro m offset s reqs h
    have h' : catalog.length ≤ 100 * n + (offset + 100) := by omega
    rw [show n + 1 + m = (n + m) + 1 from by omega]
    simp only [buildLoop]
    by_cases hb : (batchQuery catalog s offset).isEmpty = true
    · simp [hb]
    · by_cases hd : (batchDescs (batchQuery catalog s offset)).isEmpty = true
      · simp [hb, hd, ih m (offset + 100) s reqs h']
      · cases he : embedB (batchDescs (batchQuery catalog s offset)) with
        | error e => simp [hb, hd, he, ih m (offset + 100) s _ h']
        | ok embs => simp [hb, hd, he, ih m (offset + 100) _ _ h']

/-- The amount of fuel supplied by generate_and_store_embeddings already
saturates the loop: any surplus is irrelevant. -/
lemma generate_fuel_independent (embedB : List String → Except Unit (List Vec))
    (catalog : List Item) (m : Nat) :
    buildLoop embedB catalog (catalog.length + 1 + m) 0 [] [] =
      buildLoop embedB catalog (catalog.length + 1) 0 [] [] :=
  buildLoop_fuel_adequate embedB catalog (catalog.length + 1) m 0 [] [] (by omega)

/-- If every embedding call fails, no write survives any iteration: the
loop returns the table it started from. -/
lemma buildLoop_error_store (catalog : List Item) (fuel : Nat) :
    ∀ (offset : Nat) (s : Store) (reqs : List (List String)),
      (buildLoop (fun _ => Except.error ()) catalog fuel offset s reqs).store = s := by
  induction fuel with
  | zero => intro _ _ _; rfl
  | succ n ih =>
    intro offset s reqs
    simp only [buildLoop]
    by_cases hb : (batchQuery catalog s offset).isEmpty = true
    · simp [hb]
    · by_cases hd : (batchDescs (batchQuery catalog s offset)).isEmpty = true
      · simp [hb, hd, ih (offset + 100) s reqs]
      · simp [hb, hd, ih (offset + 100) s (reqs ++ [batchDescs (batchQuery catalog s offset)])]

/-- The LIMIT 1 distance query on a non-empty table returns a row of the
table attaining the minimum distance to the query vector. -/
lemma minByDist_spec (dist : Vec → Vec → Int) (q : Vec) :
    ∀ s : Store, s ≠ [] →
      ∃ p, minByDist dist q s = some p ∧ p ∈ s ∧ ∀ r ∈ s, dist q p.2 ≤ dist q r.2 := by
  intro s
  induction s with
  | nil => intro h; exact absurd rfl h
  | cons p ps ih =>
    intro _
    by_cases hps : ps = []
    · subst hps
      refine ⟨p, by simp [minByDist], by simp, ?_⟩
      intro r hr
      rw [List.mem_singleton] at hr
      rw [hr]
    · obtain ⟨m, hm, hmem, hmin⟩ := ih hps
      by_cases hle : dist q p.2 ≤ dist q m.2
      · refine ⟨p, by simp [minByDist, hm, hle], by simp, ?_⟩
        intro r hr
        rcases List.mem_cons.mp hr with h | h
        · rw [h]
        · exact le_trans hle (hmin r h)
      · refine ⟨m, by simp [minByDist, hm, hle], List.mem_cons_of_mem p hmem, ?_⟩
        intro r hr
        rcases List.mem_cons.mp hr with h | h
        · rw [h]; exact le_of_not_le hle
        · exact hmin r h

/-- Repeating a keyed upsert with the same key and value is the identity
on the second application. -/
lemma upsert_upsert (s : Store) (k : Nat) (v : Vec) :
    upsert (upsert s k v) k v = upsert s k v := by
  induction s with
  | nil => simp [upsert]
  | cons p ps ih =>
    by_cases h : (p.1 == k) = true
    · simp [upsert, h]
    · simp [upsert, h, ih]

/-- For a key distinct from the upserted one, key membership in the table
is unchanged by the upsert. -/
lemma any_keys_upsert (k : Nat) (v : Vec) (a : Nat) (hak : (k == a) = false) :
    ∀ ps : Store, ((upsert ps k v).any (fun q => q.1 == a)) = (ps.any (fun q => q.1 == a)) := by
  intro ps
  induction ps with
  | nil => simp [upsert, hak]
  | cons q qs ih =>
    by_cases h : (q.1 == k) = true
    · have hq : q.1 = k := by rwa [beq_iff_eq] at h
      simp [upsert, h, hak, hq]
    · simp [upsert, h, ih]

/-- A keyed upsert preserves the PRIMARY KEY invariant: it never creates a
second row with an existing item id. -/
lemma nodupKeys_upsert (s : Store) (k : Nat) (v : Vec) (h : nodupKeys s = true) :
    nodupKeys (upsert s k v) = true := by
  induction s with
  | nil => simp [upsert, nodupKeys]
  | cons p ps ih =>
    simp only [nodupKeys, Bool.and_eq_true, Bool.not_eq_true'] at h
    obtain ⟨h1, h2⟩ := h
    by_cases hpk : (p.1 == k) = true
    · have hq : p.1 = k := by rwa [beq_iff_eq] at hpk
      simp [upsert, hpk, nodupKeys, h2, ← hq, h1]
    · have hne : p.1 ≠ k := by
        intro hcontra
        exact hpk (beq_iff_eq.mpr hcontra)
      have hka : (k == p.1) = false := beq_eq_false_iff_ne.mpr (Ne.symm hne)
      simp [upsert, hpk, nodupKeys, any_keys_upsert k v p.1 hka ps, h1, ih h2]

/-- Folding keyed upserts over a batch preserves the PRIMARY KEY
invariant. -/
lemma foldl_upsert_nodup (l : List (Item × Vec)) :
    ∀ s : Store, nodupKeys s = true →
      nodupKeys (l.foldl (fun acc p => upsert acc p.1.id p.2) s) = true := by
  induction l with
  | nil => intro s h; exact h
  | cons p ps ih => intro s h; exact ih _ (nodupKeys_upsert _ _ _ h)

/-- Every table reachable by the builder loop from a duplicate-free table
is duplicate-free. -/
lemma buildLoop_nodup (embedB : List String → Except Unit (List Vec))
    (catalog : List Item) (fuel : Nat) :
    ∀ (offset : Nat) (s : Store) (reqs : List (List String)),
      nodupKeys s = true →
      nodupKeys (buildLoop embedB catalog fuel offset s reqs).store = true := by
  induction fuel with
  | zero => intro _ s _ h; exact h
  | succ n ih =>
    intro offset s reqs h
    simp only [buildLoop]
    by_cases hb : (batchQuery catalog s offset).isEmpty = true
    · simpa [hb] using h
    · by_cases hd : (batchDescs (batchQuery catalog s offset)).isEmpty = true
      · simp only [hb, hd]
        simpa using ih (offset + 100) s reqs h
      · cases he : embedB (batchDescs (batchQuery catalog s offset)) with
        | error e =>
          simp only [hb, hd, he]
          simpa using ih (offset + 100) s _ h
        | ok embs =>
          simp only [hb, hd, he]
          simpa using ih (offset + 100) _ _ (foldl_upsert_nodup _ s h)

/-! Claim theorems. -/

/-- C1: the claim states that every catalog item with a non-empty
description has an embedding record after one complete run. Evaluating the
builder at the three-item catalog refutes it: item 3 has the non-empty
description c, yet the run stores no record for id 3, because the service
reply for the filtered batch of texts is zipped against the unfiltered
batch of items and the final pair is dropped. -/
theorem builder_misses_described_item :
    Item.mk 3 (some "c") ∈ catalogMix ∧
    pyTruthy (some "c") = true ∧
    keyMem 3 (generate_and_store_embeddings embedByCodes catalogMix []).store = false := by
  refine ⟨by decide, by decide, by decide⟩

/-- C2: the claim states that null-description items get no record and
that every stored record holds the embedding of the item own description.
Evaluating the builder at the three-item catalog refutes both parts: item
2 has a null description, yet the run stores a record for id 2, and the
stored vector is the embedding of c, the description of item 3. -/
theorem builder_stores_foreign_embedding :
    Item.mk 2 none ∈ catalogMix ∧
    (generate_and_store_embeddings embedByCodes catalogMix []).store = [(1, [97]), (2, [99])] ∧
    embedByCodes ["c"] = Except.ok [[99]] := by
  refine ⟨by decide, by decide, rfl⟩

/-- The one-item catalog used to exhibit reprocessing across runs. -/
def catalogOne : List Item := [⟨1, some "a"⟩]

/-- C3 counterexample: after a first run item 1 is embedded, yet a second
run over the unchanged catalog sends the description of item 1 to the
embedding service again, because the run begins by dropping the table, so
the not-yet-embedded filter excludes nothing from the previous run. -/
theorem second_run_resends_embedded_item :
    keyMem 1 (generate_and_store_embeddings embedByCodes catalogOne []).store = true ∧
    (generate_and_store_embeddings embedByCodes catalogOne
      ((generate_and_store_embeddings embedByCodes catalogOne []).store)).requests = [["a"]] := by
  refine ⟨by decide, by decide⟩

/-- C3 (amended): rerunning the builder over an unchanged catalog produces
exactly the same result, same table and same embedding-service requests,
because every run drops the table first and is therefore independent of
the prior table contents; the not-yet-embedded filter only excludes items
embedded earlier within the same run, so a second run reprocesses all
items rather than skipping the already-embedded ones. -/
theorem builder_rerun_reproduces_result (embedB : List String → Except Unit (List Vec))
    (catalog : List Item) (prior : Store) :
    generate_and_store_embeddings embedB catalog
      ((generate_and_store_embeddings embedB catalog prior).store) =
      generate_and_store_embeddings embedB catalog prior := rfl

/-- C4: a failing embedding call for one batch leaves the table exactly as
it was before the batch (the rollback discards the batch writes), records
the failed request, and the loop continues at the next offset; moreover if
every batch fails, the completed build still terminates with an unchanged
empty table, so a batch failure never aborts the overall build. -/
theorem builder_batch_failure_isolated :
    (∀ (embedB : List String → Except Unit (List Vec)) (catalog : List Item)
        (s : Store) (reqs : List (List String)) (offset fuel : Nat),
        (batchQuery catalog s offset).isEmpty = false →
        (batchDescs (batchQuery catalog s offset)).isEmpty = false →
        embedB (batchDescs (batchQuery catalog s offset)) = Except.error () →
        buildLoop embedB catalog (fuel + 1) offset s reqs =
          buildLoop embedB catalog fuel (offset + 100) s
            (reqs ++ [batchDescs (batchQuery catalog s offset)])) ∧
    (∀ (catalog : List Item) (prior : Store),
        (generate_and_store_embeddings (fun _ => Except.error ()) catalog prior).store = []) := by
  constructor
  · intro embedB catalog s reqs offset fuel h1 h2 h3
    simp [buildLoop, h1, h2, h3]
  · intro catalog prior
    unfold generate_and_store_embeddings
    by_cases hc : (catalog.length == 0) = true
    · simp [hc]
    · simp [hc, buildLoop_error_store]

theorem builder_batch_failure_isolated_witness :
    (batchQuery [⟨1, some "a"⟩] [] 0).isEmpty = false ∧
    (batchDescs (batchQuery [⟨1, some "a"⟩] [] 0)).isEmpty = false ∧
    buildLoop (fun _ => Except.error ()) [⟨1, some "a"⟩] 2 0 [] [] =
      buildLoop (fun _ => Except.error ()) [⟨1, some "a"⟩] 1 100 []
        ([] ++ [batchDescs (batchQuery [⟨1, some "a"⟩] [] 0)]) ∧
    (generate_and_store_embeddings (fun _ => Except.error ()) [⟨1, some "a"⟩] []).store = [] := by
  refine ⟨by decide, by decide, ?_, ?_⟩
  · exact builder_batch_failure_isolated.1 (fun _ => Except.error ())
      [⟨1, some "a"⟩] [] [] 0 1 (by decide) (by decide) rfl
  · exact builder_batch_failure_isolated.2 [⟨1, some "a"⟩] []

/-- C5: for a non-empty query text and a non-empty embedding table, the
resolver answers with exactly one item id, and that id belongs to a stored
row whose embedding attains the minimum distance to the query embedding
under the storage distance operator; no ranking or top-k result exists in
the response type. -/
theorem rag_search_returns_nearest (embedQ : String → Vec) (dist : Vec → Vec → Int)
    (s : Store) (d : String) (hd : d ≠ "") (hs : s ≠ []) :
    ∃ p, p ∈ s ∧ (rag_search embedQ dist s (some d)).response = RagResponse.found p.1 ∧
      ∀ r ∈ s, dist (embedQ d) p.2 ≤ dist (embedQ d) r.2 := by
  obtain ⟨p, hm, hmem, hmin⟩ := minByDist_spec dist (embedQ d) s hs
  refine ⟨p, hmem, ?_, hmin⟩
  have ht : pyTruthy (some d) = true := by simp [pyTruthy, hd]
  simp [rag_search, ht, hm]

theorem rag_search_returns_nearest_witness :
    ∃ p, p ∈ ([(1, [5]), (2, [2])] : Store) ∧
      (rag_search (fun t => [(t.length : Int)])
        (fun a b => (a.headD 0 - b.headD 0) ^ 2)
        [(1, [5]), (2, [2])] (some "ab")).response = RagResponse.found p.1 ∧
      ∀ r ∈ ([(1, [5]), (2, [2])] : Store),
        (fun a b => (a.headD 0 - b.headD 0) ^ 2) ((fun t => [(t.length : Int)]) "ab") p.2 ≤
          (fun a b => (a.headD 0 - b.headD 0) ^ 2) ((fun t => [(t.length : Int)]) "ab") r.2 :=
  rag_search_returns_nearest (fun t => [(t.length : Int)])
    (fun a b => (a.headD 0 - b.headD 0) ^ 2)
    [(1, [5]), (2, [2])] "ab" (by decide) (by decide)

/-- C6: a missing or empty item description makes the resolver answer the
400 client error with no call to the embedding service and no database
access. -/
theorem rag_search_rejects_empty_input (embedQ : String → Vec) (dist : Vec → Vec → Int)
    (s : Store) (input : Option String) (h : pyTruthy input = false) :
    rag_search embedQ dist s input = ⟨RagResponse.badRequest, [], false⟩ := by
  simp [rag_search, h]

theorem rag_search_rejects_empty_input_witness :
    pyTruthy (some "") = false ∧
    rag_search (fun t => [(t.length : Int)]) (fun a b => (a.headD 0 - b.headD 0) ^ 2)
      [(1, [5])] (some "") = ⟨RagResponse.badRequest, [], false⟩ :=
  ⟨by decide, rag_search_rejects_empty_input _ _ _ _ (by decide)⟩

/-- C7: for a non-empty query text over an empty embedding table, the
resolver answers the 404 not-found body, not a server error. -/
theorem rag_search_empty_store_not_found (embedQ : String → Vec) (dist : Vec → Vec → Int)
    (d : String) (hd : d ≠ "") :
    (rag_search embedQ dist [] (some d)).response = RagResponse.notFound := by
  have ht : pyTruthy (some d) = true := by simp [pyTruthy, hd]
  simp [rag_search, ht, minByDist]

theorem rag_search_empty_store_not_found_witness :
    "ab" ≠ "" ∧
    (rag_search (fun t => [(t.length : Int)]) (fun a b => (a.headD 0 - b.headD 0) ^ 2)
      [] (some "ab")).response = RagResponse.notFound :=
  ⟨by decide, rag_search_empty_store_not_found _ _ "ab" (by decide)⟩

/-- C8 counterexample: when conn.cursor raises after a successful connect,
the finally block of get_data_from_db_combined reads the unbound local
name cursor and itself raises UnboundLocalError, and the opened connection
is never closed; this refutes guaranteed release on all exit paths and
refutes that the cleanup code never fails. -/
theorem gddc_cleanup_failure_counterexample :
    get_data_from_db_combined ⟨true, false⟩ (fun _ _ => Except.error ())
      (some "+15551234567") none 1 10 =
      ⟨PyOutcome.raised PyError.unboundLocal, true, false, false⟩ := rfl

/-- C8 (amended): the connection and the cursor are released exactly when
both acquisitions succeed; on those runs every exit path, including a
failing query, closes both, while a failed connect or a failed cursor
acquisition makes the finally block itself raise UnboundLocalError, and in
the failed-cursor case the opened connection is never closed. -/
theorem gddc_release_characterization (env : DBEnv)
    (exec : String → QueryParams → Except Unit (List OutfitRow))
    (p i : Option String) (page pp : Nat) :
    (get_data_from_db_combined env exec p i page pp).connOpened = env.connectOk ∧
    (get_data_from_db_combined env exec p i page pp).connClosed = (env.connectOk && env.cursorOk) ∧
    (get_data_from_db_combined env exec p i page pp).cursorClosed = (env.connectOk && env.cursorOk) ∧
    ((env.connectOk && env.cursorOk) = false →
      (get_data_from_db_combined env exec p i page pp).outcome =
        PyOutcome.raised PyError.unboundLocal) := by
  obtain ⟨co, cu⟩ := env
  cases co <;> cases cu
  · exact ⟨rfl, rfl, rfl, fun _ => rfl⟩
  · exact ⟨rfl, rfl, rfl, fun _ => rfl⟩
  · exact ⟨rfl, rfl, rfl, fun _ => rfl⟩
  · cases hx : exec combinedQuery ⟨p, i, pp, (page - 1) * pp⟩ <;>
      simp [get_data_from_db_combined, hx]

theorem gddc_release_characterization_witness :
    (get_data_from_db_combined ⟨false, true⟩ (fun _ _ => Except.error ())
      none none 1 10).connOpened = false ∧
    (get_data_from_db_combined ⟨false, true⟩ (fun _ _ => Except.error ())
      none none 1 10).connClosed = (false && true) ∧
    (get_data_from_db_combined ⟨false, true⟩ (fun _ _ => Except.error ())
      none none 1 10).outcome = PyOutcome.raised PyError.unboundLocal := by
  have h := gddc_release_characterization ⟨false, true⟩ (fun _ _ => Except.error ()) none none 1 10
  exact ⟨h.1, h.2.1, h.2.2.2 (by decide)⟩

/-- C9: builder writes are keyed upserts into a PRIMARY KEY table:
repeating the write of the same item id and vector leaves the table
unchanged, an upsert never introduces a second row with an existing item
id, and every table produced by a builder run has at most one row per
item id. -/
theorem upsert_keyed_invariants :
    (∀ (s : Store) (k : Nat) (v : Vec), upsert (upsert s k v) k v = upsert s k v) ∧
    (∀ (s : Store) (k : Nat) (v : Vec), nodupKeys s = true → nodupKeys (upsert s k v) = true) ∧
    (∀ (embedB : List String → Except Unit (List Vec)) (catalog : List Item) (prior : Store),
      nodupKeys (generate_and_store_embeddings embedB catalog prior).store = true) := by
  refine ⟨upsert_upsert, nodupKeys_upsert, ?_⟩
  intro embedB catalog prior
  unfold generate_and_store_embeddings
  by_cases hc : (catalog.length == 0) = true
  · simp [hc, nodupKeys]
  · simp only [hc]
    simpa using buildLoop_nodup embedB catalog (catalog.length + 1) 0 [] [] rfl

theorem upsert_keyed_invariants_witness :
    upsert (upsert [(1, [5])] 2 [7]) 2 [7] = upsert [(1, [5])] 2 [7] ∧
    nodupKeys [(1, [5])] = true ∧
    nodupKeys (upsert [(1, [5])] 2 [7]) = true ∧
    nodupKeys (generate_and_store_embeddings embedByCodes catalogMix []).store = true := by
  refine ⟨upsert_keyed_invariants.1 [(1, [5])] 2 [7], by decide,
    upsert_keyed_invariants.2.1 [(1, [5])] 2 [7] (by decide),
    upsert_keyed_invariants.2.2 embedByCodes catalogMix []⟩

/-- C10: the combined outfit query juxtaposes two SELECT clauses, its
execution by the storage layer fails, the helper swallows the error and
returns None, and for every request with a truthy phone number or
Instagram username the /api/data endpoint answers the database-error 500
outcome when acquisition succeeds, and in every environment answers one of
the two 500 outcomes, never outfit data. -/
theorem api_data_always_db_error :
    selectCount combinedQuery = 2 ∧
    (∀ (exec : String → QueryParams → Except Unit (List OutfitRow)),
      (∀ ps, exec combinedQuery ps = Except.error ()) →
      ∀ (phone insta : Option String) (page pp : Nat),
        (pyTruthy phone || pyTruthy insta) = true →
        api_data ⟨true, true⟩ exec phone insta page pp = ApiResp.dbError500) ∧
    (∀ (env : DBEnv) (exec : String → QueryParams → Except Unit (List OutfitRow)),
      (∀ ps, exec combinedQuery ps = Except.error ()) →
      ∀ (phone insta : Option String) (page pp : Nat),
        (pyTruthy phone || pyTruthy insta) = true →
        (api_data env exec phone insta page pp = ApiResp.dbError500 ∨
          api_data env exec phone insta page pp = ApiResp.unexpected500)) := by
  refine ⟨by decide, ?_, ?_⟩
  · intro exec hexec phone insta page pp h
    simp [api_data, h, get_data_from_db_combined, hexec]
  · intro env exec hexec phone insta page pp h
    obtain ⟨co, cu⟩ := env
    cases co
    · right; simp [api_data, h, get_data_from_db_combined]
    · cases cu
      · right; simp [api_data, h, get_data_from_db_combined]
      · left; simp [api_data, h, get_data_from_db_combined, hexec]

theorem api_data_always_db_error_witness :
    (pyTruthy (some "5551234567") || pyTruthy none) = true ∧
    api_data ⟨true, true⟩ (fun _ _ => Except.error ())
      (some "5551234567") none 1 10 = ApiResp.dbError500 := by
  refine ⟨by decide, ?_⟩
  exact api_data_always_db_error.2.1 (fun _ _ => Except.error ()) (fun _ => rfl)
    (some "5551234567") none 1 10 (by decide)

end DbAccess
